import Mathlib

/-!
Verification development for the EarthData-to-Action backend aggregator.

The Python source (app/routers/data.py, app/services/merra2.py,
app/services/imerg.py, app/services/openaq_airnow.py) is shallowly embedded
below.  Numeric values travel as exact rationals; Python `round` (round-half-to-even) is modelled by `roundHalfEven` / `pyRound`.
The builtin string hash (salted per process in CPython) and the seeded
Mersenne-Twister draw are modelled as explicit function parameters
`pyHash : String → ℤ` and `rng : ℕ → ℚ` (seed to first uniform draw in
[0,1)), so that properties that depend on them can be stated honestly.
Upstream HTTP calls are modelled by an `Except PyExn` parameter carrying the
outcome of the request, and the textual regex scans of the OPeNDAP replies by
a parse-function parameter; the adapters are then functions in the `Except`
monad, which makes "never lets an exception escape" a statement about the
result always being `Except.ok`.
-/

/-- Python `round(x)`: round to nearest integer, ties to even. -/
def roundHalfEven (x : ℚ) : ℤ :=
  if x - (⌊x⌋ : ℚ) < 1/2 then ⌊x⌋
  else if 1/2 < x - (⌊x⌋ : ℚ) then ⌊x⌋ + 1
  else if ⌊x⌋ % 2 = 0 then ⌊x⌋ else ⌊x⌋ + 1

/-- Python `round(x, d)` for `d ≥ 0`: round to `d` decimal places, ties to even. -/
def pyRound (x : ℚ) (d : ℕ) : ℚ :=
  (roundHalfEven (x * 10 ^ d) : ℚ) / 10 ^ d

/-- `x` is representable with `d` decimal places (a grid point of the rounding). -/
def decGrid (d : ℕ) (x : ℚ) : Prop :=
  ∃ k : ℤ, x = (k : ℚ) / 10 ^ d

lemma roundHalfEven_intCast (k : ℤ) : roundHalfEven (k : ℚ) = k := by
  simp [roundHalfEven]

lemma floor_le_roundHalfEven (x : ℚ) : ⌊x⌋ ≤ roundHalfEven x := by
  unfold roundHalfEven
  split
  · omega
  split
  · omega
  split <;> omega

lemma roundHalfEven_le_floor_add_one (x : ℚ) : roundHalfEven x ≤ ⌊x⌋ + 1 := by
  unfold roundHalfEven
  split
  · omega
  split
  · omega
  split <;> omega

lemma le_roundHalfEven_of_le (k : ℤ) (x : ℚ) (h : (k : ℚ) ≤ x) :
    k ≤ roundHalfEven x := by
  have hk : k ≤ ⌊x⌋ := Int.le_floor.mpr h
  exact le_trans hk (floor_le_roundHalfEven x)

lemma roundHalfEven_le_of_le (x : ℚ) (k : ℤ) (h : x ≤ (k : ℚ)) :
    roundHalfEven x ≤ k := by
  rcases eq_or_lt_of_le h with heq | hlt
  · subst heq
    rw [roundHalfEven_intCast]
  · have hfl : ⌊x⌋ < k := by
      have := Int.floor_le_floor hlt.le
      have hfk : ⌊x⌋ ≤ k := by simpa using this
      rcases eq_or_lt_of_le hfk with hfe | hflt
    -- if ⌊x⌋ = k then x < k = ⌊x⌋ ≤ x is absurd unless frac = 0,
    -- in which case roundHalfEven x = ⌊x⌋ = k anyway; handle below.
      · exact absurd hfe (by
          intro hh
          have hle : (k : ℚ) ≤ x := by
            rw [← hh]; exact Int.floor_le x
          exact absurd hlt (not_lt.mpr hle))
      · exact hflt
    have := roundHalfEven_le_floor_add_one x
    omega

lemma abs_roundHalfEven_sub (x : ℚ) : |(roundHalfEven x : ℚ) - x| ≤ 1/2 := by
  unfold roundHalfEven
  have h0 : (⌊x⌋ : ℚ) ≤ x := Int.floor_le x
  have h1 : x < (⌊x⌋ : ℚ) + 1 := Int.lt_floor_add_one x
  split
  · rename_i hlt
    rw [abs_le]
    constructor <;> [linarith; linarith]
  · rename_i hge
    push_neg at hge
    split
    · rename_i hgt
      rw [abs_le]
      push_cast
      constructor <;> [linarith; linarith]
    · rename_i hle
      push_neg at hle
      have heq : x - (⌊x⌋ : ℚ) = 1/2 := le_antisymm hle hge
      split
      · rw [abs_le]
        constructor <;> [linarith; linarith]
      · rw [abs_le]
        push_cast
        constructor <;> [linarith; linarith]

lemma pyRound_le_of_le (x hi : ℚ) (d : ℕ) (hgrid : decGrid d hi) (h : x ≤ hi) :
    pyRound x d ≤ hi := by
  obtain ⟨k, rfl⟩ := hgrid
  have hpow : (0 : ℚ) < 10 ^ d := by positivity
  have hx : x * 10 ^ d ≤ (k : ℚ) := by
    rw [div_eq_mul_inv] at h
    calc x * 10 ^ d ≤ ((k : ℚ) * (10 ^ d)⁻¹) * 10 ^ d := by
          exact mul_le_mul_of_nonneg_right (by simpa [div_eq_mul_inv] using h) hpow.le
      _ = (k : ℚ) := by field_simp
  have := roundHalfEven_le_of_le (x * 10 ^ d) k hx
  unfold pyRound
  rw [div_le_div_iff₀ hpow hpow]
  have hcast : ((roundHalfEven (x * 10 ^ d) : ℚ)) ≤ (k : ℚ) := by exact_mod_cast this
  nlinarith

lemma le_pyRound_of_le (lo x : ℚ) (d : ℕ) (hgrid : decGrid d lo) (h : lo ≤ x) :
    lo ≤ pyRound x d := by
  obtain ⟨k, rfl⟩ := hgrid
  have hpow : (0 : ℚ) < 10 ^ d := by positivity
  have hx : (k : ℚ) ≤ x * 10 ^ d := by
    rw [div_eq_mul_inv] at h
    calc (k : ℚ) = ((k : ℚ) * (10 ^ d)⁻¹) * 10 ^ d := by field_simp
      _ ≤ x * 10 ^ d := by
          exact mul_le_mul_of_nonneg_right (by simpa [div_eq_mul_inv] using h) hpow.le
  have := le_roundHalfEven_of_le k (x * 10 ^ d) hx
  unfold pyRound
  rw [div_le_div_iff₀ hpow hpow]
  have hcast : (k : ℚ) ≤ ((roundHalfEven (x * 10 ^ d) : ℚ)) := by exact_mod_cast this
  nlinarith

lemma abs_pyRound_sub (x : ℚ) (d : ℕ) :
    |pyRound x d - x| ≤ 1 / (2 * 10 ^ d) := by
  have hpow : (0 : ℚ) < 10 ^ d := by positivity
  have h := abs_roundHalfEven_sub (x * 10 ^ d)
  unfold pyRound
  rw [show (roundHalfEven (x * 10 ^ d) : ℚ) / 10 ^ d - x
        = ((roundHalfEven (x * 10 ^ d) : ℚ) - x * 10 ^ d) / 10 ^ d by field_simp; ring]
  rw [abs_div, abs_of_pos hpow]
  rw [div_le_div_iff₀ hpow (by positivity)]
  calc |(roundHalfEven (x * 10 ^ d) : ℚ) - x * 10 ^ d| * (2 * 10 ^ d)
      ≤ (1/2) * (2 * 10 ^ d) := by
        exact mul_le_mul_of_nonneg_right h (by positivity)
    _ = 1 * 10 ^ d := by ring

/-! ## Synthetic value generator (app/routers/data.py lines 51-59) -/

/-- Python percent-style float formatting with 4 decimals, as in
`f"{lat:.4f}"`: round-half-even to 4 decimal places, zero-padded fraction,
sign taken from the unrounded value. -/
def fmt4 (q : ℚ) : String :=
  let scaled := roundHalfEven (q * 10000)
  let sign := if q < 0 then "-" else ""
  let n := scaled.natAbs
  let fracStr := toString (n % 10000)
  sign ++ toString (n / 10000) ++ "." ++
    String.mk (List.replicate (4 - fracStr.length) '0') ++ fracStr

/-- `_seed_from` (app/routers/data.py): `abs(hash(s)) % (2**31 - 1)` over the
key string `f"{lat:.4f},{lon:.4f}|{dt_iso}|{var}"`.  `pyHash` models the
CPython builtin `hash` on strings, which is salted per process; the seed is
therefore a function of the per-process hash, not of the tuple alone. -/
def _seed_from (pyHash : String → ℤ) (lat lon : ℚ) (dt_iso var : String) : ℕ :=
  (pyHash (fmt4 lat ++ "," ++ fmt4 lon ++ "|" ++ dt_iso ++ "|" ++ var)).natAbs
    % (2 ^ 31 - 1)

/-- `random.Random(seed).uniform(lo, hi)` = `lo + (hi - lo) * random()`,
with `random()` the first draw of the generator seeded with `seed`. -/
def py_uniform (r lo hi : ℚ) : ℚ := lo + (hi - lo) * r

/-- `_fake_uniform` (app/routers/data.py): a fresh generator is seeded from
the tuple, one uniform draw in `[lo, hi]` is taken and rounded.  `rng` maps a
seed to the first `random()` output of a generator with that seed (the
Mersenne Twister itself is unsalted, hence a fixed function). -/
def _fake_uniform (pyHash : String → ℤ) (rng : ℕ → ℚ) (lat lon : ℚ)
    (dt_iso var : String) (lo hi : ℚ) (decimals : ℕ) : ℚ :=
  pyRound (py_uniform (rng (_seed_from pyHash lat lon dt_iso var)) lo hi) decimals

/-! ## Observation records and helpers (app/routers/data.py lines 35-70) -/

/-- One `recent_observations` entry `{"name": .., "value": .., "unit": ..}`. -/
structure Obs where
  name : String
  value : ℚ
  unit : String
  deriving DecidableEq, Repr

/-- `DataSource` (app/schemas/common.py). -/
structure DataSource where
  name : String
  url : String
  note : Option String := none
  auth_required : Bool := false
  deriving DecidableEq, Repr

/-- `_ensure_filled` (app/routers/data.py): scan the list; on the first entry
whose `name` matches, overwrite its `value`/`unit` in place and stop;
otherwise append a new entry at the end. -/
def _ensure_filled (obs_list : List Obs) (var_name unit : String) (value : ℚ) :
    List Obs :=
  match obs_list with
  | [] => [⟨var_name, value, unit⟩]
  | it :: rest =>
    if it.name = var_name then ⟨var_name, value, unit⟩ :: rest
    else it :: _ensure_filled rest var_name unit value

/-- `_p90` (app/routers/data.py): nearest-rank 90th percentile, rank
`int(round(0.9 * (n - 1)))` into the ascending-sorted list.  Python sorts
with a stable comparison sort; on plain numbers the result is the unique
ascending reordering, modelled by `insertionSort`. -/
def _p90 (values : List ℚ) : Option ℚ :=
  if values = [] then none
  else
    let arr := values.insertionSort (· ≤ ·)
    let k := (roundHalfEven ((9/10) * ((values.length : ℚ) - 1))).toNat
    some (arr.getD k 0)

/-- The statistics record built by `_stats`. -/
structure StatsR where
  mean : ℚ
  p90 : ℚ
  last : ℚ
  deriving DecidableEq, Repr

/-- `_stats` (app/routers/data.py).  The input entries are numbers or
discarded values; `none` models both a Python `None` entry and a `NaN`
float, which the list comprehension filters out identically.  Note the
Python expression `round(_p90(clean) or mean, 3)`: when `_p90` returns the
falsy float `0.0`, the mean is rounded instead. -/
def _stats (values : List (Option ℚ)) : Option StatsR :=
  if values = [] then none
  else
    let clean := values.filterMap id
    if clean = [] then none
    else
      let mean := clean.sum / clean.length
      let p := match _p90 clean with
        | none => mean
        | some v => if v = 0 then mean else v
      some ⟨pyRound mean 3, pyRound p 3, clean.getLastD 0⟩

/-! ## Upstream adapters (app/services/merra2.py, imerg.py, openaq_airnow.py)

The HTTP layer (`app/utils/http.py`) raises `httpx.HTTPStatusError` on a
non-2xx response (`raise_for_status`) and other exception classes on
transport failures (connect errors, timeouts) or body-parse failures.  A
Python exception is modelled by `PyExn`; the outcome of one `get_text` /
`get_json` call is an `Except PyExn` value passed to the adapter, and the
adapter itself returns in the `Except PyExn` monad: a `.error` result means
an exception escaped the adapter to its caller. -/

/-- A Python exception at an adapter call site: either `httpx.HTTPStatusError`
(non-2xx status) or any other exception class (network/transport failure,
timeout, JSON/parse error, ...). -/
inductive PyExn where
  | httpStatusError (code : ℕ)
  | transportError (msg : String)
  deriving DecidableEq, Repr

/-- Rendering of an exception as interpolated into the IMERG error note. -/
def PyExn.render : PyExn → String
  | .httpStatusError code => "HTTPStatusError " ++ toString code
  | .transportError msg => msg

/-! ### MERRA-2 grid indexing (app/services/merra2.py lines 39-43, 81-82) -/

/-- `_m2_idx_lat`: `int(round((lat + 90.0) / 0.5))`. -/
def _m2_idx_lat (lat : ℚ) : ℤ := roundHalfEven ((lat + 90) / 0.5)

/-- `_m2_idx_lon`: `int(round((lon + 180.0) / 0.625))`. -/
def _m2_idx_lon (lon : ℚ) : ℤ := roundHalfEven ((lon + 180) / 0.625)

/-- The latitude index after the clamp `j = max(0, min(360, j))` in
`_fetch_m2_scalar`. -/
def m2_j_clamped (lat : ℚ) : ℤ := max 0 (min 360 (_m2_idx_lat lat))

/-- The longitude index after the clamp `i = max(0, min(575, i))` in
`_fetch_m2_scalar`. -/
def m2_i_clamped (lon : ℚ) : ℤ := max 0 (min 575 (_m2_idx_lon lon))

/-! ### IMERG grid indexing (app/services/imerg.py lines 10-16, 55-56) -/

/-- `_imerg_idx_lat`: `int(round((lat + 90.0) * 10.0))`. -/
def _imerg_idx_lat (lat : ℚ) : ℤ := roundHalfEven ((lat + 90) * 10)

/-- `_imerg_idx_lon`: `int(round((lon + 180.0) * 10.0))`. -/
def _imerg_idx_lon (lon : ℚ) : ℤ := roundHalfEven ((lon + 180) * 10)

/-- `y0 = max(0, iy - radius_cells)` in `fetch_imerg_rate_mm_per_hr`:
clamped below at 0, with no upper clamp. -/
def imerg_y0 (lat : ℚ) (radius_cells : ℤ) : ℤ :=
  max 0 (_imerg_idx_lat lat - radius_cells)

/-- `y1 = min(1799, iy + radius_cells)`: clamped above at 1799, with no
lower clamp. -/
def imerg_y1 (lat : ℚ) (radius_cells : ℤ) : ℤ :=
  min 1799 (_imerg_idx_lat lat + radius_cells)

/-- `x0 = max(0, ix - radius_cells)`. -/
def imerg_x0 (lon : ℚ) (radius_cells : ℤ) : ℤ :=
  max 0 (_imerg_idx_lon lon - radius_cells)

/-- `x1 = min(3599, ix + radius_cells)`. -/
def imerg_x1 (lon : ℚ) (radius_cells : ℤ) : ℤ :=
  min 3599 (_imerg_idx_lon lon + radius_cells)

/-! ### MERRA-2 scalar fetch (app/services/merra2.py lines 69-114) -/

/-- `_fetch_m2_scalar`.  `net` is the outcome of `get_text(url, ...)`;
`parse` models the regex search `var[t][j][i] = VALUE` over the `.ascii`
body (a successful match yields the parsed float).  The whole body after the
request sits inside `try: ... except Exception:`, so every outcome is
returned as a value: the adapter never re-raises. -/
def _fetch_m2_scalar (net : Except PyExn String) (parse : String → Option ℚ)
    (var url : String) : Except PyExn (Option ℚ × DataSource) :=
  .ok <| match net with
  | .error _ =>
    (none, { name := "MERRA-2 " ++ var ++ " (error)", url := url,
             note := some "Fallo OPeNDAP/credenciales", auth_required := true })
  | .ok txt =>
    match parse txt with
    | none =>
      (none, { name := "MERRA-2 " ++ var ++ " (ascii subset)", url := url,
               note := some "Sin valor (subsetting vació o índice fuera de rango)",
               auth_required := true })
    | some val =>
      (some val, { name := "MERRA-2 " ++ var, url := url,
                   note := some "OPeNDAP subset .ascii", auth_required := true })

/-- `fetch_t2m_c`: MERRA-2 `T2M` in Kelvin converted to Celsius. -/
def fetch_t2m_c (net : Except PyExn String) (parse : String → Option ℚ)
    (url : String) : Except PyExn (Option ℚ × DataSource) :=
  match _fetch_m2_scalar net parse "T2M" url with
  | .error e => .error e
  | .ok (none, src) => .ok (none, src)
  | .ok (some v, src) => .ok (some (v - 273.15), src)

/-- `fetch_ts_c`: MERRA-2 `TS` (skin temperature) in Kelvin to Celsius. -/
def fetch_ts_c (net : Except PyExn String) (parse : String → Option ℚ)
    (url : String) : Except PyExn (Option ℚ × DataSource) :=
  match _fetch_m2_scalar net parse "TS" url with
  | .error e => .error e
  | .ok (none, src) => .ok (none, src)
  | .ok (some v, src) => .ok (some (v - 273.15), src)

/-! ### IMERG precipitation fetch (app/services/imerg.py lines 44-84) -/

/-- `fetch_imerg_rate_mm_per_hr`.  `net` is the `get_text` outcome;
`parsePrimary` models the `precipitationCal[..][..] = VALUE` regex findall;
`parseLoose` models the fallback numeric-token scan over the `Data:`
section.  Everything after the request is inside `try: ... except
Exception as ex:`, so no exception escapes. -/
def fetch_imerg_rate_mm_per_hr (net : Except PyExn String)
    (parsePrimary parseLoose : String → List ℚ) (url : String) :
    Except PyExn (Option ℚ × DataSource) :=
  .ok <| match net with
  | .error ex =>
    (none, { name := "IMERG (error)", url := url,
             note := some ("Fallo OPeNDAP/credenciales: " ++ ex.render),
             auth_required := true })
  | .ok txt =>
    let vals := parsePrimary txt
    let vals := if vals = [] then parseLoose txt else vals
    if vals = [] then
      (none, { name := "IMERG (ascii subset)", url := url,
               note := some "Sin datos en píxel", auth_required := true })
    else
      (some (vals.sum / vals.length),
       { name := "IMERG precipitationCal (mm/h)", url := url,
         note := some "OPeNDAP subset .ascii", auth_required := true })

/-! ### OpenAQ v3 and AirNow adapters (app/services/openaq_airnow.py)

The JSON bodies are modelled by records carrying exactly the fields the
adapter reads.  Each of the three `get_json` calls of the OpenAQ flow is
wrapped in `try: ... except httpx.HTTPStatusError:` ONLY — any other
exception class (network failure, timeout, JSON decode error) is not caught
there and propagates to the caller, which the embedding renders as an
`Except.error` result. -/

/-- The fields read from one entry of `location detail -> sensors`. -/
structure OAQSensor where
  sid : Option ℕ
  pname : Option String
  units : Option String
  deriving DecidableEq, Repr

/-- The fields read from one entry of `locations/{id}/latest -> results`. -/
structure OAQLatestRow where
  sensorsId : Option ℕ
  value : Option ℚ
  deriving DecidableEq, Repr

/-- The payload dictionary returned by `openaq_latest_nearby_values`. -/
inductive OAQPayload where
  | errorPayload (msg : String)
  | warningPayload (msg : String)
  | dataPayload (location_id : Option ℕ) (observations : List (String × ℚ × Option String))
  deriving DecidableEq, Repr

/-- The `sensor_map` built from the location detail: sensor id to
`(parameter-name lowercased or "", units)`.  Python stores these in a dict
keyed by sensor id (later duplicates overwrite), looked up with `in`/`[]`;
lookup over the reversed insertion list models that. -/
def oaq_sensor_map (sensors : List OAQSensor) : List (ℕ × String × Option String) :=
  sensors.filterMap fun s =>
    match s.sid with
    | none => none
    | some sid => some (sid, ((s.pname.getD "").toLower, s.units))

/-- The observation loop of `openaq_latest_nearby_values` (source lines
88-106): keep rows whose sensor is mapped, whose lowercased parameter name
is in `wanted = ("pm25","no2","o3")` and whose value is non-null;
ppm to ppb times 1000 for the gases; display name `PM2.5` / upper-case. -/
def oaq_observations (smap : List (ℕ × String × Option String))
    (rows : List OAQLatestRow) : List (String × ℚ × Option String) :=
  rows.filterMap fun r =>
    match r.sensorsId with
    | none => none
    | some sid =>
      match (smap.reverse.find? fun e => e.1 = sid) with
      | none => none
      | some (_, pname, units) =>
        match r.value with
        | none => none
        | some val =>
          if pname = "pm25" ∨ pname = "no2" ∨ pname = "o3" then
            let conv :=
              if (pname = "no2" ∨ pname = "o3") ∧ units = some "ppm" then
                (val * 1000, some "ppb")
              else (val, units)
            some (if pname = "pm25" then "PM2.5" else pname.toUpper,
                  conv.1, conv.2)
          else none

/-- `openaq_latest_nearby_values`.  `net_locs`, `net_detail`, `net_latest`
are the outcomes of the three `get_json` calls (locations query: the list of
location ids of `results`; detail query: per-result sensor lists; latest
query: rows).  Only `httpx.HTTPStatusError` is caught at each call; any
other exception escapes as `.error`. -/
def openaq_latest_nearby_values
    (net_locs : Except PyExn (List (Option ℕ)))
    (net_detail : Except PyExn (List (List OAQSensor)))
    (net_latest : Except PyExn (List OAQLatestRow))
    (locs_url loc_detail_url latest_url : String) :
    Except PyExn (OAQPayload × DataSource) :=
  let note := "OpenAQ v3 locations→latest"
  match net_locs with
  | .error (.httpStatusError code) =>
    .ok (.errorPayload ("OpenAQ " ++ toString code),
         { name := "OpenAQ v3 (error)", url := locs_url, note := some note,
           auth_required := true })
  | .error e => .error e
  | .ok locs_res =>
    match locs_res with
    | [] =>
      .ok (.warningPayload "No nearby OpenAQ locations",
           { name := "OpenAQ locations", url := locs_url, note := some note,
             auth_required := true })
    | loc_id :: _ =>
      match net_detail with
      | .error (.httpStatusError code) =>
        .ok (.errorPayload ("OpenAQ " ++ toString code),
             { name := "OpenAQ v3 (error)", url := loc_detail_url,
               note := some note, auth_required := true })
      | .error e => .error e
      | .ok detail_results =>
        let sensors := (detail_results.headD [])
        let smap := oaq_sensor_map sensors
        match net_latest with
        | .error (.httpStatusError code) =>
          .ok (.errorPayload ("OpenAQ " ++ toString code),
               { name := "OpenAQ v3 (error)", url := latest_url,
                 note := some note, auth_required := true })
        | .error e => .error e
        | .ok rows =>
          .ok (.dataPayload loc_id (oaq_observations smap rows),
               { name := "OpenAQ latest by location (v3)", url := latest_url,
                 note := some note, auth_required := true })

/-- The payload returned by `airnow_nearby`; `α` stands for the raw JSON
body passed through untouched. -/
inductive AirNowPayload (α : Type) where
  | warningPayload (msg : String)
  | errorPayload (msg : String)
  | dataPayload (body : α)
  deriving DecidableEq, Repr

/-- `airnow_nearby` (source lines 113-146): without an API key, a warning
payload with a template descriptor; with one, a single `get_json` guarded
only against `httpx.HTTPStatusError` — other exception classes escape. -/
def airnow_nearby {α : Type} (api_key : Option String)
    (net : Except PyExn α) (url tmpl_url : String) :
    Except PyExn (AirNowPayload α × DataSource) :=
  match api_key with
  | none =>
    .ok (.warningPayload "AIRNOW_API_KEY not set",
         { name := "AirNow observations", url := tmpl_url,
           note := some "Requiere API key.", auth_required := true })
  | some _ =>
    match net with
    | .ok data =>
      .ok (.dataPayload data,
           { name := "AirNow observations", url := url,
             note := some "Requiere API key.", auth_required := true })
    | .error (.httpStatusError code) =>
      .ok (.errorPayload ("AirNow " ++ toString code),
           { name := "AirNow (error)", url := url,
             note := some "Verifica API key y parámetros.", auth_required := true })
    | .error e => .error e

/-! ### Wind magnitude (app/services/merra2.py lines 141-151) -/

/-- The Euclidean magnitude `math.sqrt(u*u + v*v)` computed by
`fetch_wind10m` from the two reanalysis components, in m/s. -/
noncomputable def wind10m_speed (u v : ℝ) : ℝ := Real.sqrt (u * u + v * v)

/-- `fetch_wind10m` value part: absent when either component is absent,
otherwise the Euclidean magnitude. -/
noncomputable def fetch_wind10m (u v : Option ℚ) : Option ℝ :=
  match u, v with
  | some u, some v => some (wind10m_speed u v)
  | _, _ => none

/-! ## Predict-mode composition (app/routers/data.py)

Each `/data/*` endpoint in predict mode resolves its variables (live adapter
value if present, synthetic otherwise), records the synthetic names in
`faker_filled`, and wraps everything with the display time block.  The
embedding takes the already-awaited adapter values as `Option ℚ` inputs and
returns the parts of the response body the claims are about. -/

/-- The predict-mode response parts: `recent_observations`, the
`extra_context.faker_filled` provenance list, and `time.horizon_hours`. -/
structure PredictBody where
  recent_observations : List Obs
  faker_filled : List String
  horizon_hours : ℤ
  deriving DecidableEq, Repr

/-- `/data/precipitation` predict branch (source lines 173-221).
`imerg_live`, `rh_live`, `ts_live` are the values returned by
`fetch_imerg_rate_mm_per_hr`, `fetch_rh2m` and `fetch_ts_c`. -/
def precipitation_predict (pyHash : String → ℤ) (rng : ℕ → ℚ) (lat lon : ℚ)
    (dt_iso : String) (imerg_live rh_live ts_live : Option ℚ)
    (hours_fwd : ℤ) : PredictBody :=
  let fake_rain :=
    let u1 := _fake_uniform pyHash rng lat lon dt_iso "imerg_rate_u1" 0 1 3
    let u2 := _fake_uniform pyHash rng lat lon dt_iso "imerg_rate_u2" 0 1 3
    pyRound (u1 * u2 * 12) 2
  let imerg_val := imerg_live.getD fake_rain
  let fk0 : List String := match imerg_live with
    | none => ["imerg_rate"]
    | some _ => []
  let rh2m := rh_live.getD (_fake_uniform pyHash rng lat lon dt_iso "humidity" 35 95 0)
  let fk1 := fk0 ++ (match rh_live with | none => ["humidity"] | some _ => [])
  let ts_c := ts_live.getD (_fake_uniform pyHash rng lat lon dt_iso "skin_temp" 5 35 1)
  let fk2 := fk1 ++ (match ts_live with | none => ["skin_temp"] | some _ => [])
  { recent_observations :=
      [⟨"imerg_rate", imerg_val, "mm/h"⟩,
       ⟨"humidity", rh2m, "%"⟩,
       ⟨"skin_temp", ts_c, "°C"⟩],
    faker_filled := fk2,
    horizon_hours := max hours_fwd 24 }

/-- `/data/temperature` predict branch (source lines 236-277).  The time
block is built with the constant 72: `TemperatureDataQuery` has no
`hours_fwd` field (only `days_back`/`days_fwd`, unused here). -/
def temperature_predict (pyHash : String → ℤ) (rng : ℕ → ℚ) (lat lon : ℚ)
    (dt_iso : String) (t2m_live rh_live : Option ℚ) : PredictBody :=
  let t2m_c := t2m_live.getD (_fake_uniform pyHash rng lat lon dt_iso "temperature" (-5) 38 1)
  let fk0 : List String := match t2m_live with
    | none => ["temperature"]
    | some _ => []
  let rh2m := rh_live.getD (_fake_uniform pyHash rng lat lon dt_iso "humidity" 20 95 0)
  let fk1 := fk0 ++ (match rh_live with | none => ["humidity"] | some _ => [])
  let tmax_24h := pyRound (t2m_c + _fake_uniform pyHash rng lat lon dt_iso "tmax_boost" 0.5 6.5 1) 1
  let tmin_24h := pyRound (t2m_c - _fake_uniform pyHash rng lat lon dt_iso "tmin_boost" 0.5 7.0 1) 1
  let cloud_cover := _fake_uniform pyHash rng lat lon dt_iso "cloud_cover" 5 95 0
  { recent_observations :=
      [⟨"temperature", t2m_c, "°C"⟩,
       ⟨"humidity", rh2m, "%"⟩,
       ⟨"t_max_24h", tmax_24h, "°C"⟩,
       ⟨"t_min_24h", tmin_24h, "°C"⟩,
       ⟨"cloud_cover", cloud_cover, "%"⟩],
    faker_filled := fk1,
    horizon_hours := 72 }

/-- `/data/wind` predict branch (source lines 297-341).  `w_mps` is the
magnitude returned by `fetch_wind10m` (already in m/s); presentation
converts it with `round(w * 3.6, 1)` to km/h.  Only the absent branch
appends to `faker_filled`; `wind_dir` and `pressure` are synthesized on
both paths and never recorded there. -/
def wind_predict (pyHash : String → ℤ) (rng : ℕ → ℚ) (lat lon : ℚ)
    (dt_iso : String) (w_mps : Option ℚ) (hours_fwd : ℤ) : PredictBody :=
  let sg : ℚ × ℚ × List String := match w_mps with
    | none =>
      let fake_kmh := _fake_uniform pyHash rng lat lon dt_iso "wind_speed" 2 70 1
      let gust_kmh :=
        pyRound (fake_kmh * _fake_uniform pyHash rng lat lon dt_iso "gust_factor" 1.3 1.8 2) 1
      (fake_kmh, gust_kmh, ["wind_speed", "wind_gust"])
    | some w =>
      let wind_speed_kmh := pyRound (w * 3.6) 1
      (wind_speed_kmh, pyRound (wind_speed_kmh * 1.5) 1, [])
  let wind_dir := _fake_uniform pyHash rng lat lon dt_iso "wind_dir" 0 360 0
  let pressure_hpa := _fake_uniform pyHash rng lat lon dt_iso "pressure" 800 1020 0
  { recent_observations :=
      [⟨"wind_speed", sg.1, "km/h"⟩,
       ⟨"wind_gust", sg.2.1, "km/h"⟩,
       ⟨"wind_dir", wind_dir, "°"⟩,
       ⟨"pressure", pressure_hpa, "hPa"⟩],
    faker_filled := sg.2.2,
    horizon_hours := max hours_fwd 48 }

/-! ## Spec-side reference definitions and fixed witnesses -/

/-- The description given by the spec for the percentile: "p90 as the value at rank
`round(0.9 × (n-1))` in the sorted ascending sequence (nearest-rank, not
interpolated)", as a standalone function to compare `_stats` against. -/
def spec_p90_rank (clean : List ℚ) : ℚ :=
  (clean.insertionSort (· ≤ ·)).getD
    ((roundHalfEven ((9/10) * ((clean.length : ℚ) - 1))).toNat) 0

/-- A concrete first-draw table: seed 0 draws 0, every other seed draws 1/2.
Used to exhibit concrete synthetic values. -/
def rng_two_level : ℕ → ℚ := fun s => if s = 0 then 0 else 1/2

/-- A concrete first-draw table drawing 1/2 for every seed. -/
def rng_half : ℕ → ℚ := fun _ => 1/2

/-- A constant process hash, standing for one possible per-process salting
of the CPython string hash. -/
def hash_const (k : ℤ) : String → ℤ := fun _ => k

/-! ## Helper lemmas -/

lemma py_uniform_mem (r lo hi : ℚ) (h0 : 0 ≤ r) (h1 : r < 1) (hlh : lo ≤ hi) :
    lo ≤ py_uniform r lo hi ∧ py_uniform r lo hi ≤ hi := by
  unfold py_uniform
  constructor
  · nlinarith
  · nlinarith

lemma _fake_uniform_mem (pyHash : String → ℤ) (rng : ℕ → ℚ) (lat lon : ℚ)
    (dt_iso var : String) (lo hi : ℚ) (d : ℕ)
    (h0 : 0 ≤ rng (_seed_from pyHash lat lon dt_iso var))
    (h1 : rng (_seed_from pyHash lat lon dt_iso var) < 1)
    (hlh : lo ≤ hi) (hglo : decGrid d lo) (hghi : decGrid d hi) :
    lo ≤ _fake_uniform pyHash rng lat lon dt_iso var lo hi d ∧
      _fake_uniform pyHash rng lat lon dt_iso var lo hi d ≤ hi := by
  obtain ⟨hu0, hu1⟩ := py_uniform_mem _ lo hi h0 h1 hlh
  unfold _fake_uniform
  exact ⟨le_pyRound_of_le lo _ d hglo hu0, pyRound_le_of_le _ hi d hghi hu1⟩

lemma _p90_eq_spec_rank (clean : List ℚ) (h : clean ≠ []) :
    _p90 clean = some (spec_p90_rank clean) := by
  unfold _p90 spec_p90_rank
  rw [if_neg h]

lemma map_replace_of_not_mem (l : List Obs) (n : String) (u : String) (v : ℚ)
    (hn : n ∉ l.map Obs.name) :
    l.map (fun o => if o.name = n then (⟨n, v, u⟩ : Obs) else o) = l := by
  induction l with
  | nil => rfl
  | cons a l ih =>
    simp only [List.map_cons, List.mem_cons, not_or] at hn
    obtain ⟨ha, hl⟩ := hn
    rw [List.map_cons, if_neg (fun hh => ha hh.symm), ih hl]

/-! ## Claim theorems -/

/-- C1: the synthetic value generator is deterministic only within one
process.  `_seed_from` feeds the key string to the CPython builtin string
hash, which is salted per process (PYTHONHASHSEED); two processes whose
hashes map the key of (lat 0, lon 0, "2024-01-01T00:00:00+00:00", "PM2.5")
to 0 and 1 respectively return 5.0 and 62.5 for the identical input tuple,
against the hard invariant of cross-restart reproducibility in the spec. -/
theorem C1_synthetic_value_not_stable_across_processes :
    _fake_uniform (hash_const 0) rng_two_level 0 0 "2024-01-01T00:00:00+00:00" "PM2.5" 5 120 1 = 5 ∧
    _fake_uniform (hash_const 1) rng_two_level 0 0 "2024-01-01T00:00:00+00:00" "PM2.5" 5 120 1 = 125/2 ∧
    ((5 : ℚ) ≠ 125/2) := by
  refine ⟨?_, ?_, by norm_num⟩ <;>
  · simp [_fake_uniform, _seed_from, hash_const, rng_two_level, py_uniform, pyRound,
      roundHalfEven, -Int.self_sub_floor]
    norm_num [-Int.self_sub_floor]

/-- C2 counterexample: a transport exception (connection failure) in the
first OpenAQ request is caught by nothing — the adapter guards only against
`httpx.HTTPStatusError` — and escapes the adapter boundary to the caller. -/
theorem C2_counterexample_openaq_transport_escapes :
    openaq_latest_nearby_values (.error (.transportError "connection refused"))
        (.ok []) (.ok []) "locs" "detail" "latest"
      = .error (.transportError "connection refused") := rfl

/-- C2 amended: the MERRA-2 and IMERG adapters catch every upstream failure
(status, transport or parse) and return an absent value plus a descriptor
whose name carries an error-case suffix; the OpenAQ and AirNow adapters
catch only HTTP status errors — at each of the three OpenAQ requests and at
the AirNow request a status error is converted to an error payload with an
error-suffixed descriptor, while a non-HTTP transport exception at any of
those four call sites is caught by nothing and escapes to the caller. -/
theorem C2_amended_adapter_error_handling :
    (∀ net parse var url, ∃ r, _fetch_m2_scalar net parse var url = .ok r) ∧
    (∀ e parse var url, _fetch_m2_scalar (.error e) parse var url =
      .ok (none, { name := "MERRA-2 " ++ var ++ " (error)", url := url,
                   note := some "Fallo OPeNDAP/credenciales", auth_required := true })) ∧
    (∀ txt var url, _fetch_m2_scalar (.ok txt) (fun _ => none) var url =
      .ok (none, { name := "MERRA-2 " ++ var ++ " (ascii subset)", url := url,
                   note := some "Sin valor (subsetting vació o índice fuera de rango)",
                   auth_required := true })) ∧
    (∀ net p1 p2 url, ∃ r, fetch_imerg_rate_mm_per_hr net p1 p2 url = .ok r) ∧
    (∀ e p1 p2 url, fetch_imerg_rate_mm_per_hr (.error e) p1 p2 url =
      .ok (none, { name := "IMERG (error)", url := url,
                   note := some ("Fallo OPeNDAP/credenciales: " ++ PyExn.render e),
                   auth_required := true })) ∧
    (∀ code d l u1 u2 u3,
      openaq_latest_nearby_values (.error (.httpStatusError code)) d l u1 u2 u3 =
        .ok (.errorPayload ("OpenAQ " ++ toString code),
             { name := "OpenAQ v3 (error)", url := u1,
               note := some "OpenAQ v3 locations→latest", auth_required := true })) ∧
    (∀ code loc_id rest l u1 u2 u3,
      openaq_latest_nearby_values (.ok (loc_id :: rest))
          (.error (.httpStatusError code)) l u1 u2 u3 =
        .ok (.errorPayload ("OpenAQ " ++ toString code),
             { name := "OpenAQ v3 (error)", url := u2,
               note := some "OpenAQ v3 locations→latest", auth_required := true })) ∧
    (∀ code loc_id rest detail u1 u2 u3,
      openaq_latest_nearby_values (.ok (loc_id :: rest)) (.ok detail)
          (.error (.httpStatusError code)) u1 u2 u3 =
        .ok (.errorPayload ("OpenAQ " ++ toString code),
             { name := "OpenAQ v3 (error)", url := u3,
               note := some "OpenAQ v3 locations→latest", auth_required := true })) ∧
    (∀ msg d l u1 u2 u3,
      openaq_latest_nearby_values (.error (.transportError msg)) d l u1 u2 u3 =
        .error (.transportError msg)) ∧
    (∀ msg loc_id rest l u1 u2 u3,
      openaq_latest_nearby_values (.ok (loc_id :: rest))
          (.error (.transportError msg)) l u1 u2 u3 =
        .error (.transportError msg)) ∧
    (∀ msg loc_id rest detail u1 u2 u3,
      openaq_latest_nearby_values (.ok (loc_id :: rest)) (.ok detail)
          (.error (.transportError msg)) u1 u2 u3 =
        .error (.transportError msg)) ∧
    (∀ code key url tmpl,
      airnow_nearby (α := String) (some key) (.error (.httpStatusError code)) url tmpl =
        .ok (.errorPayload ("AirNow " ++ toString code),
             { name := "AirNow (error)", url := url,
               note := some "Verifica API key y parámetros.", auth_required := true })) ∧
    (∀ msg key url tmpl,
      airnow_nearby (α := String) (some key) (.error (.transportError msg)) url tmpl =
        .error (.transportError msg)) := by
  refine ⟨?_, ?_, ?_, ?_, ?_, ?_, ?_, ?_, ?_, ?_, ?_, ?_, ?_⟩
  · intro net parse var url
    exact ⟨_, rfl⟩
  · intro e parse var url
    rfl
  · intro txt var url
    rfl
  · intro net p1 p2 url
    exact ⟨_, rfl⟩
  · intro e p1 p2 url
    rfl
  · intro code d l u1 u2 u3
    rfl
  · intro code loc_id rest l u1 u2 u3
    rfl
  · intro code loc_id rest detail u1 u2 u3
    rfl
  · intro msg d l u1 u2 u3
    rfl
  · intro msg loc_id rest l u1 u2 u3
    rfl
  · intro msg loc_id rest detail u1 u2 u3
    rfl
  · intro code key url tmpl
    rfl
  · intro msg key url tmpl
    rfl

/-- C3 counterexample: forcing the reanalysis wind absent at a concrete
input, `faker_filled` is exactly `["wind_speed", "wind_gust"]`; in
particular `wind_dir` (and `pressure`) are absent from the fallback
provenance even though they are always synthetic, contradicting "always
listed in the fallback-provenance list". -/
theorem C3_counterexample_wind_dir_not_in_provenance :
    (wind_predict (hash_const 0) rng_half 0 0 "t" none 48).faker_filled
        = ["wind_speed", "wind_gust"] ∧
    "wind_dir" ∉ (wind_predict (hash_const 0) rng_half 0 0 "t" none 48).faker_filled ∧
    "pressure" ∉ (wind_predict (hash_const 0) rng_half 0 0 "t" none 48).faker_filled := by
  refine ⟨rfl, ?_, ?_⟩ <;> simp [wind_predict]

/-- C3 amended: in the wind predict branch, when the reanalysis value is
absent, `recent_observations` carries `wind_speed` and `wind_gust` and
`faker_filled` is exactly those two names; `wind_dir` and `pressure` are
present in `recent_observations` for every input but are never listed in
`faker_filled`. -/
theorem C3_amended_wind_predict_provenance :
    ∀ (pyHash : String → ℤ) (rng : ℕ → ℚ) (lat lon : ℚ) (dt_iso : String)
      (hours_fwd : ℤ),
      (∀ w_mps,
        "wind_dir" ∈ (wind_predict pyHash rng lat lon dt_iso w_mps hours_fwd).recent_observations.map Obs.name ∧
        "pressure" ∈ (wind_predict pyHash rng lat lon dt_iso w_mps hours_fwd).recent_observations.map Obs.name ∧
        "wind_dir" ∉ (wind_predict pyHash rng lat lon dt_iso w_mps hours_fwd).faker_filled ∧
        "pressure" ∉ (wind_predict pyHash rng lat lon dt_iso w_mps hours_fwd).faker_filled) ∧
      ("wind_speed" ∈ (wind_predict pyHash rng lat lon dt_iso none hours_fwd).recent_observations.map Obs.name ∧
       "wind_gust" ∈ (wind_predict pyHash rng lat lon dt_iso none hours_fwd).recent_observations.map Obs.name ∧
       (wind_predict pyHash rng lat lon dt_iso none hours_fwd).faker_filled
          = ["wind_speed", "wind_gust"]) := by
  intro pyHash rng lat lon dt_iso hours_fwd
  refine ⟨fun w_mps => ?_, by simp [wind_predict]⟩
  cases w_mps <;> simp [wind_predict]

/-- C8 counterexample: the temperature predict response reports the fixed
horizon 72 regardless of any request-supplied forward window; with a
forward value of 100 the claimed `max` would be 100, not 72.  (The
temperature request model has only `days_back`/`days_fwd`, and the handler
passes the constant 72 to the time block.) -/
theorem C8_counterexample_temperature_horizon_fixed :
    (temperature_predict (hash_const 0) rng_half 0 0 "t" none none).horizon_hours = 72 ∧
    ¬ (temperature_predict (hash_const 0) rng_half 0 0 "t" none none).horizon_hours
        = max 72 100 := by
  constructor
  · rfl
  · intro h
    rw [show (temperature_predict (hash_const 0) rng_half 0 0 "t" none none).horizon_hours
          = 72 from rfl] at h
    omega

/-- C8 amended: the precipitation and wind predict responses report
`max(hours_fwd, fixed)` with fixed horizons 24 and 48; the temperature
predict response always reports the constant 72 (its request carries no
forward-hours field, and the supplied `days_fwd` is ignored). -/
theorem C8_amended_display_horizons :
    ∀ (pyHash : String → ℤ) (rng : ℕ → ℚ) (lat lon : ℚ) (dt_iso : String)
      (hours_fwd : ℤ) (imerg rh ts t2m w : Option ℚ),
      (precipitation_predict pyHash rng lat lon dt_iso imerg rh ts hours_fwd).horizon_hours
          = max hours_fwd 24 ∧
      (wind_predict pyHash rng lat lon dt_iso w hours_fwd).horizon_hours
          = max hours_fwd 48 ∧
      (temperature_predict pyHash rng lat lon dt_iso t2m rh).horizon_hours = 72 := by
  intros
  exact ⟨rfl, rfl, rfl⟩

/-- C10 counterexample: at the valid coordinate lat = 90 with neighbourhood
radius 0, the IMERG row-start index is `max(0, round((90+90)*10) - 0) =
1800`, outside the grid bound 1799 — the start indices have no upper clamp. -/
theorem C10_counterexample_imerg_row_start_overflow :
    imerg_y0 90 0 = 1800 ∧ ¬ imerg_y0 90 0 ≤ 1799 := by
  have h : imerg_y0 90 0 = 1800 := by
    norm_num [imerg_y0, _imerg_idx_lat, roundHalfEven, -Int.self_sub_floor]
  exact ⟨h, by rw [h]; omega⟩

/-- C10 amended: the MERRA-2 subset indices are fully clamped into
[0, 360] × [0, 575] for every real-valued input; the IMERG indices are only
half-clamped — start indices at 0 from below, end indices at 1799/3599 from
above — so an IMERG start index can exceed the grid maximum (lat = 90 gives
row start 1800) and the out-of-range subset is reachable. -/
theorem C10_amended_grid_index_clamping :
    (∀ lat : ℚ, 0 ≤ m2_j_clamped lat ∧ m2_j_clamped lat ≤ 360) ∧
    (∀ lon : ℚ, 0 ≤ m2_i_clamped lon ∧ m2_i_clamped lon ≤ 575) ∧
    (∀ (lat : ℚ) (r : ℤ), 0 ≤ imerg_y0 lat r ∧ imerg_y1 lat r ≤ 1799) ∧
    (∀ (lon : ℚ) (r : ℤ), 0 ≤ imerg_x0 lon r ∧ imerg_x1 lon r ≤ 3599) ∧
    imerg_y0 90 0 = 1800 := by
  refine ⟨fun lat => ⟨le_max_left 0 _, ?_⟩, fun lon => ⟨le_max_left 0 _, ?_⟩,
    fun lat r => ⟨le_max_left 0 _, min_le_left _ _⟩,
    fun lon r => ⟨le_max_left 0 _, min_le_left _ _⟩, ?_⟩
  · exact max_le (by omega) (min_le_left _ _)
  · exact max_le (by omega) (min_le_left _ _)
  · norm_num [imerg_y0, _imerg_idx_lat, roundHalfEven, -Int.self_sub_floor]

/-- C4 counterexample: for clean input [-10, 0] the nearest-rank element is
`0.0`, which is falsy in Python, so `round(_p90(clean) or mean, 3)` reports
the rounded mean -5.0 instead of the rank element 0 — the universally
quantified p90 clause of the claim fails at this input. -/
theorem C4_counterexample_p90_zero_reports_mean :
    _stats [some (-10), some 0] = some ⟨-5, -5, 0⟩ ∧
    spec_p90_rank [(-10 : ℚ), 0] = 0 ∧
    pyRound (spec_p90_rank [(-10 : ℚ), 0]) 3 = 0 ∧
    ((-5 : ℚ) ≠ 0) := by
  refine ⟨?_, ?_, ?_, by norm_num⟩
  · simp [_stats, _p90, List.insertionSort, List.orderedInsert, pyRound, roundHalfEven,
      -Int.self_sub_floor]
    norm_num [-Int.self_sub_floor, show Int.toNat 1 = 1 from rfl]
  · simp [spec_p90_rank, List.insertionSort, List.orderedInsert, roundHalfEven,
      -Int.self_sub_floor]
    norm_num [-Int.self_sub_floor, show Int.toNat 1 = 1 from rfl]
  · simp [spec_p90_rank, List.insertionSort, List.orderedInsert, pyRound, roundHalfEven,
      -Int.self_sub_floor]
    norm_num [-Int.self_sub_floor, show Int.toNat 1 = 1 from rfl]

/-- C4 amended: on a non-empty input whose clean part (None/NaN entries
discarded) is non-empty, `_stats` reports the arithmetic mean rounded to 3
decimals, the chronologically last clean value un-rounded, and — unless the
nearest-rank element at rank `round(0.9 × (n-1))` of the ascending sort is
exactly 0, in which case the mean is reported in its place — that rank
element rounded to 3 decimals.  An empty or all-invalid input yields no
statistics object.  For [10, 20, 30, 40] this gives mean 25.0, p90 40,
last 40. -/
theorem C4_amended_stats_correctness :
    (∀ values : List (Option ℚ),
      (values = [] → _stats values = none) ∧
      (values.filterMap id = [] → _stats values = none) ∧
      (values ≠ [] → values.filterMap id ≠ [] →
        _stats values = some
          { mean := pyRound ((values.filterMap id).sum / ((values.filterMap id).length : ℚ)) 3,
            p90 := pyRound (if spec_p90_rank (values.filterMap id) = 0
                            then (values.filterMap id).sum / ((values.filterMap id).length : ℚ)
                            else spec_p90_rank (values.filterMap id)) 3,
            last := (values.filterMap id).getLastD 0 })) ∧
    _stats [some 10, some 20, some 30, some 40] = some ⟨25, 40, 40⟩ := by
  constructor
  · intro values
    refine ⟨fun h => by simp [_stats, h], fun h => ?_, fun h1 h2 => ?_⟩
    · unfold _stats
      split
      · rfl
      · rw [if_pos h]
    · unfold _stats
      rw [if_neg h1, if_neg h2, _p90_eq_spec_rank _ h2]
  · simp [_stats, _p90, List.insertionSort, List.orderedInsert, pyRound, roundHalfEven,
      -Int.self_sub_floor]
    norm_num [-Int.self_sub_floor, show Int.toNat 3 = 3 from rfl]

/-- C4 witness: the amended theorem applied at the concrete input
[10, 20, 30, 40], discharging both non-emptiness hypotheses. -/
theorem C4_witness_stats_on_concrete_input :
    ([some (10 : ℚ), some 20, some 30, some 40] ≠ ([] : List (Option ℚ))) ∧
    ([some (10 : ℚ), some 20, some 30, some 40].filterMap id ≠ []) ∧
    _stats [some 10, some 20, some 30, some 40] = some
      { mean := pyRound (([some (10 : ℚ), some 20, some 30, some 40].filterMap id).sum /
                  (([some (10 : ℚ), some 20, some 30, some 40].filterMap id).length : ℚ)) 3,
        p90 := pyRound (if spec_p90_rank ([some (10 : ℚ), some 20, some 30, some 40].filterMap id) = 0
                        then ([some (10 : ℚ), some 20, some 30, some 40].filterMap id).sum /
                          (([some (10 : ℚ), some 20, some 30, some 40].filterMap id).length : ℚ)
                        else spec_p90_rank ([some (10 : ℚ), some 20, some 30, some 40].filterMap id)) 3,
        last := ([some (10 : ℚ), some 20, some 30, some 40].filterMap id).getLastD 0 } :=
  ⟨by simp, by simp,
   (C4_amended_stats_correctness.1 [some 10, some 20, some 30, some 40]).2.2
     (by simp) (by simp)⟩

/-- C5: every synthesized value lies within its declared bounds — all call
sites declare bounds representable at the requested precision — and the
rounding step moves the drawn value by at most half of the least-significant
rounding unit; in particular the synthetic precipitation rate, the rounded
product of two unit uniforms scaled by 12, lies in [0, 12] mm/h. -/
theorem C5_synthetic_range_containment :
    (∀ (pyHash : String → ℤ) (rng : ℕ → ℚ) (lat lon : ℚ) (dt_iso var : String)
        (lo hi : ℚ) (d : ℕ),
      0 ≤ rng (_seed_from pyHash lat lon dt_iso var) →
      rng (_seed_from pyHash lat lon dt_iso var) < 1 →
      lo ≤ hi → decGrid d lo → decGrid d hi →
      (lo ≤ _fake_uniform pyHash rng lat lon dt_iso var lo hi d ∧
        _fake_uniform pyHash rng lat lon dt_iso var lo hi d ≤ hi) ∧
      |_fake_uniform pyHash rng lat lon dt_iso var lo hi d -
          py_uniform (rng (_seed_from pyHash lat lon dt_iso var)) lo hi|
        ≤ 1 / (2 * 10 ^ d)) ∧
    (∀ (pyHash : String → ℤ) (rng : ℕ → ℚ) (lat lon : ℚ) (dt_iso : String)
        (rh ts : Option ℚ) (hours_fwd : ℤ),
      (∀ s, 0 ≤ rng s ∧ rng s < 1) →
      ∃ v, (precipitation_predict pyHash rng lat lon dt_iso none rh ts
              hours_fwd).recent_observations.head? = some ⟨"imerg_rate", v, "mm/h"⟩ ∧
        0 ≤ v ∧ v ≤ 12) := by
  constructor
  · intro pyHash rng lat lon dt_iso var lo hi d h0 h1 hlh hglo hghi
    exact ⟨_fake_uniform_mem pyHash rng lat lon dt_iso var lo hi d h0 h1 hlh hglo hghi,
           abs_pyRound_sub _ d⟩
  · intro pyHash rng lat lon dt_iso rh ts hours_fwd hr
    set u1 := _fake_uniform pyHash rng lat lon dt_iso "imerg_rate_u1" 0 1 3 with hu1
    set u2 := _fake_uniform pyHash rng lat lon dt_iso "imerg_rate_u2" 0 1 3 with hu2
    obtain ⟨hu1a, hu1b⟩ := _fake_uniform_mem pyHash rng lat lon dt_iso "imerg_rate_u1" 0 1 3
      (hr _).1 (hr _).2 (by norm_num) ⟨0, by norm_num⟩ ⟨1000, by norm_num⟩
    obtain ⟨hu2a, hu2b⟩ := _fake_uniform_mem pyHash rng lat lon dt_iso "imerg_rate_u2" 0 1 3
      (hr _).1 (hr _).2 (by norm_num) ⟨0, by norm_num⟩ ⟨1000, by norm_num⟩
    refine ⟨pyRound (u1 * u2 * 12) 2, ?_, ?_, ?_⟩
    · simp [precipitation_predict, hu1, hu2]
    · exact le_pyRound_of_le 0 _ 2 ⟨0, by norm_num⟩ (by nlinarith)
    · exact pyRound_le_of_le _ 12 2 ⟨1200, by norm_num⟩ (by nlinarith)

/-- C5 witness: the containment part at the wind-speed call-site parameters
(range [2, 70], 1 decimal, every draw 1/2) and the precipitation part at a
concrete request, with every hypothesis discharged. -/
theorem C5_witness_concrete_ranges :
    (0 ≤ rng_half (_seed_from (hash_const 0) 0 0 "t" "wind_speed")) ∧
    (rng_half (_seed_from (hash_const 0) 0 0 "t" "wind_speed") < 1) ∧
    ((2 ≤ _fake_uniform (hash_const 0) rng_half 0 0 "t" "wind_speed" 2 70 1 ∧
      _fake_uniform (hash_const 0) rng_half 0 0 "t" "wind_speed" 2 70 1 ≤ 70) ∧
     |_fake_uniform (hash_const 0) rng_half 0 0 "t" "wind_speed" 2 70 1 -
        py_uniform (rng_half (_seed_from (hash_const 0) 0 0 "t" "wind_speed")) 2 70|
       ≤ 1 / (2 * 10 ^ 1)) ∧
    (∃ v, (precipitation_predict (hash_const 0) rng_half 0 0 "t" none none none
            24).recent_observations.head? = some ⟨"imerg_rate", v, "mm/h"⟩ ∧
      0 ≤ v ∧ v ≤ 12) :=
  ⟨by norm_num [rng_half], by norm_num [rng_half],
   C5_synthetic_range_containment.1 (hash_const 0) rng_half 0 0 "t" "wind_speed" 2 70 1
     (by norm_num [rng_half]) (by norm_num [rng_half]) (by norm_num)
     ⟨20, by norm_num⟩ ⟨700, by norm_num⟩,
   C5_synthetic_range_containment.2 (hash_const 0) rng_half 0 0 "t" none none 24
     (fun s => ⟨by norm_num [rng_half], by norm_num [rng_half]⟩)⟩

/-- C6: in every temperature predict response, `t_max_24h` and `t_min_24h`
are present in `recent_observations` — the resolved point temperature plus a
uniform boost in [0.5, 6.5] resp. minus a uniform cut in [0.5, 7.0], each
rounded to 1 decimal — and neither name is ever listed in `faker_filled`,
whether the point temperature was live or synthetic. -/
theorem C6_tmax_tmin_composite_derivatives (pyHash : String → ℤ) (rng : ℕ → ℚ)
    (lat lon : ℚ) (dt_iso : String) (t2m_live rh_live : Option ℚ)
    (hr : ∀ s, 0 ≤ rng s ∧ rng s < 1) :
    ∃ t2m_res boost cut,
      (0.5 : ℚ) ≤ boost ∧ boost ≤ 6.5 ∧ (0.5 : ℚ) ≤ cut ∧ cut ≤ 7.0 ∧
      (⟨"temperature", t2m_res, "°C"⟩ : Obs)
        ∈ (temperature_predict pyHash rng lat lon dt_iso t2m_live rh_live).recent_observations ∧
      (⟨"t_max_24h", pyRound (t2m_res + boost) 1, "°C"⟩ : Obs)
        ∈ (temperature_predict pyHash rng lat lon dt_iso t2m_live rh_live).recent_observations ∧
      (⟨"t_min_24h", pyRound (t2m_res - cut) 1, "°C"⟩ : Obs)
        ∈ (temperature_predict pyHash rng lat lon dt_iso t2m_live rh_live).recent_observations ∧
      "t_max_24h" ∉ (temperature_predict pyHash rng lat lon dt_iso t2m_live rh_live).faker_filled ∧
      "t_min_24h" ∉ (temperature_predict pyHash rng lat lon dt_iso t2m_live rh_live).faker_filled := by
  obtain ⟨hb1, hb2⟩ := _fake_uniform_mem pyHash rng lat lon dt_iso "tmax_boost" 0.5 6.5 1
    (hr _).1 (hr _).2 (by norm_num) ⟨5, by norm_num⟩ ⟨65, by norm_num⟩
  obtain ⟨hc1, hc2⟩ := _fake_uniform_mem pyHash rng lat lon dt_iso "tmin_boost" 0.5 7.0 1
    (hr _).1 (hr _).2 (by norm_num) ⟨5, by norm_num⟩ ⟨70, by norm_num⟩
  refine ⟨Option.getD t2m_live (_fake_uniform pyHash rng lat lon dt_iso "temperature" (-5) 38 1),
          _fake_uniform pyHash rng lat lon dt_iso "tmax_boost" 0.5 6.5 1,
          _fake_uniform pyHash rng lat lon dt_iso "tmin_boost" 0.5 7.0 1,
          hb1, hb2, hc1, hc2, ?_, ?_, ?_, ?_, ?_⟩
  · simp [temperature_predict]
  · simp [temperature_predict]
  · simp [temperature_predict]
  · cases t2m_live <;> cases rh_live <;> simp [temperature_predict]
  · cases t2m_live <;> cases rh_live <;> simp [temperature_predict]

/-- C6 witness: the theorem at a concrete request (both adapters absent,
every draw 1/2), with the draw-range hypothesis discharged. -/
theorem C6_witness_concrete_temperature_request :
    ((0 : ℚ) ≤ rng_half 0 ∧ rng_half 0 < 1) ∧
    (∃ t2m_res boost cut,
      (0.5 : ℚ) ≤ boost ∧ boost ≤ 6.5 ∧ (0.5 : ℚ) ≤ cut ∧ cut ≤ 7.0 ∧
      (⟨"temperature", t2m_res, "°C"⟩ : Obs)
        ∈ (temperature_predict (hash_const 0) rng_half 0 0 "t" none none).recent_observations ∧
      (⟨"t_max_24h", pyRound (t2m_res + boost) 1, "°C"⟩ : Obs)
        ∈ (temperature_predict (hash_const 0) rng_half 0 0 "t" none none).recent_observations ∧
      (⟨"t_min_24h", pyRound (t2m_res - cut) 1, "°C"⟩ : Obs)
        ∈ (temperature_predict (hash_const 0) rng_half 0 0 "t" none none).recent_observations ∧
      "t_max_24h" ∉ (temperature_predict (hash_const 0) rng_half 0 0 "t" none none).faker_filled ∧
      "t_min_24h" ∉ (temperature_predict (hash_const 0) rng_half 0 0 "t" none none).faker_filled) :=
  ⟨⟨by norm_num [rng_half], by norm_num [rng_half]⟩,
   C6_tmax_tmin_composite_derivatives (hash_const 0) rng_half 0 0 "t" none none
     (fun s => ⟨by norm_num [rng_half], by norm_num [rng_half]⟩)⟩

/-- C7: the temperature adapter converts Kelvin to Celsius by subtracting
exactly 273.15 (an upstream 273.15 K parses to 0.0 °C); the wind adapter
derives the speed as the Euclidean magnitude of the two components in m/s
(non-negative, square equal to u²+v², e.g. 3 and 4 give 5); the router
multiplies by exactly 3.6 at the presentation boundary, so a live 10 m/s is
reported as 36.0 km/h. -/
theorem C7_unit_conversions :
    (∀ (url txt : String) (v : ℚ), fetch_t2m_c (.ok txt) (fun _ => some v) url =
      .ok (some (v - 273.15),
           { name := "MERRA-2 T2M", url := url, note := some "OPeNDAP subset .ascii",
             auth_required := true })) ∧
    (∀ url txt : String, fetch_t2m_c (.ok txt) (fun _ => some 273.15) url =
      .ok (some 0,
           { name := "MERRA-2 T2M", url := url, note := some "OPeNDAP subset .ascii",
             auth_required := true })) ∧
    (∀ u v : ℝ, 0 ≤ wind10m_speed u v ∧ wind10m_speed u v ^ 2 = u ^ 2 + v ^ 2) ∧
    wind10m_speed 3 4 = 5 ∧
    (∀ (pyHash : String → ℤ) (rng : ℕ → ℚ) (lat lon : ℚ) (dt_iso : String)
        (hours_fwd : ℤ),
      (wind_predict pyHash rng lat lon dt_iso (some 10) hours_fwd).recent_observations.head?
        = some ⟨"wind_speed", 36, "km/h"⟩) := by
  refine ⟨fun url txt v => rfl, ?_, fun u v => ⟨Real.sqrt_nonneg _, ?_⟩, ?_, ?_⟩
  · intro url txt
    have h : (273.15 : ℚ) - 273.15 = 0 := by norm_num
    simp [fetch_t2m_c, _fetch_m2_scalar, h]
  · rw [wind10m_speed, Real.sq_sqrt (by nlinarith [mul_self_nonneg u, mul_self_nonneg v])]
    ring
  · rw [wind10m_speed, show (3 * 3 + 4 * 4 : ℝ) = 5 ^ 2 by norm_num]
    exact Real.sqrt_sq (by norm_num)
  · intro pyHash rng lat lon dt_iso hours_fwd
    have h : pyRound (10 * 3.6) 1 = 36 := by
      norm_num [pyRound, roundHalfEven, -Int.self_sub_floor]
    simp [wind_predict, h]

lemma filter_name_eq_nil (l : List Obs) (n : String) (h : n ∉ l.map Obs.name) :
    l.filter (fun o => decide (o.name = n)) = [] := by
  induction l with
  | nil => rfl
  | cons a l ih =>
    simp only [List.map_cons, List.mem_cons, not_or] at h
    rw [List.filter_cons, if_neg (by simpa using fun hh => h.1 hh.symm)]
    exact ih h.2

lemma ensure_filled_of_not_mem (l : List Obs) (n u : String) (v : ℚ)
    (h : n ∉ l.map Obs.name) :
    _ensure_filled l n u v = l ++ [⟨n, v, u⟩] := by
  induction l with
  | nil => rfl
  | cons a l ih =>
    simp only [List.map_cons, List.mem_cons, not_or] at h
    unfold _ensure_filled
    rw [if_neg (fun hh => h.1 hh.symm), ih h.2]
    rfl

lemma ensure_filled_of_mem (l : List Obs) (n u : String) (v : ℚ)
    (hnd : (l.map Obs.name).Nodup) (h : n ∈ l.map Obs.name) :
    _ensure_filled l n u v =
      l.map (fun o => if o.name = n then ⟨n, v, u⟩ else o) := by
  induction l with
  | nil => simp at h
  | cons a l ih =>
    simp only [List.map_cons, List.nodup_cons] at hnd
    by_cases ha : a.name = n
    · unfold _ensure_filled
      rw [if_pos ha, List.map_cons, if_pos ha,
        map_replace_of_not_mem l n u v (by rw [← ha]; exact hnd.1)]
    · have hmem : n ∈ l.map Obs.name := by
        rw [List.map_cons] at h
        rcases List.mem_cons.mp h with hh | hh
        · exact absurd hh.symm ha
        · exact hh
      unfold _ensure_filled
      rw [if_neg ha, List.map_cons, if_neg ha, ih hnd.2 hmem]

lemma ensure_filled_filter_eq (l : List Obs) (n u : String) (v : ℚ)
    (hnd : (l.map Obs.name).Nodup) :
    (_ensure_filled l n u v).filter (fun o => decide (o.name = n))
      = [⟨n, v, u⟩] := by
  induction l with
  | nil => simp [_ensure_filled]
  | cons a l ih =>
    simp only [List.map_cons, List.nodup_cons] at hnd
    by_cases ha : a.name = n
    · unfold _ensure_filled
      rw [if_pos ha, List.filter_cons, if_pos (by simp),
        filter_name_eq_nil l n (by rw [← ha]; exact hnd.1)]
    · unfold _ensure_filled
      rw [if_neg ha, List.filter_cons, if_neg (by simpa using ha)]
      exact ih hnd.2

lemma ensure_filled_filter_ne (l : List Obs) (n u : String) (v : ℚ) :
    (_ensure_filled l n u v).filter (fun o => decide (¬ o.name = n))
      = l.filter (fun o => decide (¬ o.name = n)) := by
  induction l with
  | nil => simp [_ensure_filled]
  | cons a l ih =>
    by_cases ha : a.name = n
    · unfold _ensure_filled
      rw [if_pos ha, List.filter_cons, List.filter_cons, if_neg (by simp),
        if_neg (by simpa using ha)]
    · unfold _ensure_filled
      rw [if_neg ha, List.filter_cons, List.filter_cons, if_pos (by simpa using ha),
        if_pos (by simpa using ha), ih]

/-- C9: on a list with pairwise-distinct names, `_ensure_filled` upserts:
when an entry with the name exists it is overwritten in place (so the list
is the pointwise replacement: same length, all other entries and the order
untouched), otherwise the new entry is appended at the end; either way the
result holds exactly one entry with that name, carrying the given value and
unit, and the entries with other names are exactly those of the input. -/
theorem C9_ensure_filled_upsert (obs_list : List Obs) (var_name unit : String)
    (value : ℚ) (hnd : (obs_list.map Obs.name).Nodup) :
    (_ensure_filled obs_list var_name unit value =
      if var_name ∈ obs_list.map Obs.name
      then obs_list.map (fun o => if o.name = var_name then ⟨var_name, value, unit⟩ else o)
      else obs_list ++ [⟨var_name, value, unit⟩]) ∧
    (_ensure_filled obs_list var_name unit value).filter
        (fun o => decide (o.name = var_name)) = [⟨var_name, value, unit⟩] ∧
    (var_name ∈ obs_list.map Obs.name →
      (_ensure_filled obs_list var_name unit value).length = obs_list.length) ∧
    (_ensure_filled obs_list var_name unit value).filter
        (fun o => decide (¬ o.name = var_name))
      = obs_list.filter (fun o => decide (¬ o.name = var_name)) := by
  refine ⟨?_, ensure_filled_filter_eq obs_list var_name unit value hnd, ?_,
    ensure_filled_filter_ne obs_list var_name unit value⟩
  · by_cases h : var_name ∈ obs_list.map Obs.name
    · rw [if_pos h]
      exact ensure_filled_of_mem obs_list var_name unit value hnd h
    · rw [if_neg h]
      exact ensure_filled_of_not_mem obs_list var_name unit value h
  · intro h
    rw [ensure_filled_of_mem obs_list var_name unit value hnd h, List.length_map]

/-- C9 witness: the upsert theorem at a concrete one-entry list with unique
names, inserting a fresh name. -/
theorem C9_witness_concrete_upsert :
    (([⟨"pm25", 7, "µg/m³"⟩] : List Obs).map Obs.name).Nodup ∧
    ((_ensure_filled [⟨"pm25", 7, "µg/m³"⟩] "no2" "ppb" 3 =
      if "no2" ∈ ([⟨"pm25", 7, "µg/m³"⟩] : List Obs).map Obs.name
      then ([⟨"pm25", 7, "µg/m³"⟩] : List Obs).map
            (fun o => if o.name = "no2" then ⟨"no2", 3, "ppb"⟩ else o)
      else [⟨"pm25", 7, "µg/m³"⟩] ++ [⟨"no2", 3, "ppb"⟩]) ∧
    (_ensure_filled [⟨"pm25", 7, "µg/m³"⟩] "no2" "ppb" 3).filter
        (fun o => decide (o.name = "no2")) = [⟨"no2", 3, "ppb"⟩] ∧
    ("no2" ∈ ([⟨"pm25", 7, "µg/m³"⟩] : List Obs).map Obs.name →
      (_ensure_filled [⟨"pm25", 7, "µg/m³"⟩] "no2" "ppb" 3).length
        = ([⟨"pm25", 7, "µg/m³"⟩] : List Obs).length) ∧
    (_ensure_filled [⟨"pm25", 7, "µg/m³"⟩] "no2" "ppb" 3).filter
        (fun o => decide (¬ o.name = "no2"))
      = ([⟨"pm25", 7, "µg/m³"⟩] : List Obs).filter
          (fun o => decide (¬ o.name = "no2"))) :=
  ⟨by simp, C9_ensure_filled_upsert [⟨"pm25", 7, "µg/m³"⟩] "no2" "ppb" 3 (by simp)⟩
